import Mathlib

/-!
Shallow embedding of the `vite-slop-template` repository: the landing-page
section components (`src/components/sections/**`) and the animation-preset
module (`src/lib/animations.ts`), together with theorems settling the
specification claims about them.

Rendered markup is modelled as a tree of elements; JSX conditionals
`{x && ...}` on optional props become `Option`-driven child lists, and a
component whose body references an identifier its module never brought
into scope renders to `Except.error` (the JavaScript `ReferenceError`).
-/

/-- A node of rendered markup: an element with a tag, attributes and
children, or a text node.  Mirrors the JSX trees the components return. -/
inductive Html where
  | el (tag : String) (attrs : List (String × String)) (children : List Html)
  | text (s : String)

/-- JSX `{opt && <node/>}`: an optional prop contributes one child when
present and nothing when omitted. -/
def optHtml {α : Type} (o : Option α) (f : α → Html) : List Html :=
  match o with
  | none => []
  | some a => [f a]

/-- A call-to-action: the `{ text, href }` prop shape used by the hero,
navbar and pricing components. -/
structure Cta where
  text : String
  href : String
deriving DecidableEq

/-- A FAQ pair, the `Faq` interface of `faq-section.tsx` (the FAQ variants
declare the identical shape). -/
structure Faq where
  question : String
  answer : String
deriving DecidableEq

namespace Animations

/-! ## `src/lib/animations.ts` (the animation-preset module) -/

/-- A Framer Motion transition record as used by the preset module:
the fields that the variant states of `animations.ts` actually set. -/
structure TransitionDef where
  staggerChildren : Option ℚ := none
  delayChildren : Option ℚ := none
  duration : Option ℚ := none
deriving DecidableEq

/-- One visual state of a Framer Motion variant (the value of the `hidden`
or `visible` key): the style properties `animations.ts` sets. -/
structure MotionState where
  opacity : Option ℚ := none
  x : Option ℚ := none
  y : Option ℚ := none
  scale : Option ℚ := none
  rotate : Option ℚ := none
  filter : Option String := none
  transition : Option TransitionDef := none
deriving DecidableEq

/-- A Framer Motion `Variants` value with the two keys the module uses. -/
structure AnimVariants where
  hidden : MotionState
  visible : MotionState
deriving DecidableEq

def fadeIn : AnimVariants :=
  { hidden := { opacity := some 0 }, visible := { opacity := some 1 } }

def fadeInUp : AnimVariants :=
  { hidden := { opacity := some 0, y := some 20 }
    visible := { opacity := some 1, y := some 0 } }

def fadeInDown : AnimVariants :=
  { hidden := { opacity := some 0, y := some (-20) }
    visible := { opacity := some 1, y := some 0 } }

def fadeInLeft : AnimVariants :=
  { hidden := { opacity := some 0, x := some (-20) }
    visible := { opacity := some 1, x := some 0 } }

def fadeInRight : AnimVariants :=
  { hidden := { opacity := some 0, x := some 20 }
    visible := { opacity := some 1, x := some 0 } }

def scaleIn : AnimVariants :=
  { hidden := { opacity := some 0, scale := some (8/10) }
    visible := { opacity := some 1, scale := some 1 } }

def scaleInUp : AnimVariants :=
  { hidden := { opacity := some 0, scale := some (8/10), y := some 20 }
    visible := { opacity := some 1, scale := some 1, y := some 0 } }

def slideInLeft : AnimVariants :=
  { hidden := { x := some (-100), opacity := some 0 }
    visible := { x := some 0, opacity := some 1 } }

def slideInRight : AnimVariants :=
  { hidden := { x := some 100, opacity := some 0 }
    visible := { x := some 0, opacity := some 1 } }

def slideInUp : AnimVariants :=
  { hidden := { y := some 100, opacity := some 0 }
    visible := { y := some 0, opacity := some 1 } }

def slideInDown : AnimVariants :=
  { hidden := { y := some (-100), opacity := some 0 }
    visible := { y := some 0, opacity := some 1 } }

def staggerContainer : AnimVariants :=
  { hidden := { opacity := some 0 }
    visible :=
      { opacity := some 1
        transition := some { staggerChildren := some (1/10), delayChildren := some (1/10) } } }

def staggerItem : AnimVariants :=
  { hidden := { opacity := some 0, y := some 20 }
    visible :=
      { opacity := some 1, y := some 0
        transition := some { duration := some (5/10) } } }

def blur : AnimVariants :=
  { hidden := { opacity := some 0, filter := some "blur(10px)" }
    visible := { opacity := some 1, filter := some "blur(0px)" } }

def rotateVariant : AnimVariants :=
  { hidden := { opacity := some 0, rotate := some (-10) }
    visible := { opacity := some 1, rotate := some 0 } }

/-- The property claimed of every exported variant: the hidden state has
opacity 0, the visible state has opacity 1, and in the visible state every
offset or distortion property that is present is at its neutral value
(`0`, `"blur(0px)"`, or scale `1`). -/
def hiddenVisibleNeutral (v : AnimVariants) : Prop :=
  v.hidden.opacity = some 0 ∧
  v.visible.opacity = some 1 ∧
  (v.visible.x = none ∨ v.visible.x = some 0) ∧
  (v.visible.y = none ∨ v.visible.y = some 0) ∧
  (v.visible.rotate = none ∨ v.visible.rotate = some 0) ∧
  (v.visible.scale = none ∨ v.visible.scale = some 1) ∧
  (v.visible.filter = none ∨ v.visible.filter = some "blur(0px)")

end Animations

/-- C8: every animation variant exported by `lib/animations.ts` (fadeIn,
fadeInUp, fadeInDown, fadeInLeft, fadeInRight, scaleIn, scaleInUp,
slideInLeft, slideInRight, slideInUp, slideInDown, staggerContainer,
staggerItem, blur, rotate) has a hidden state with opacity 0 and a visible
state with opacity 1, and in every visible state each offset or distortion
property present (x, y, rotate, blur filter) is at its neutral value and
each scale present equals 1. -/
theorem c8_animation_variants_neutral :
    Animations.hiddenVisibleNeutral Animations.fadeIn ∧
    Animations.hiddenVisibleNeutral Animations.fadeInUp ∧
    Animations.hiddenVisibleNeutral Animations.fadeInDown ∧
    Animations.hiddenVisibleNeutral Animations.fadeInLeft ∧
    Animations.hiddenVisibleNeutral Animations.fadeInRight ∧
    Animations.hiddenVisibleNeutral Animations.scaleIn ∧
    Animations.hiddenVisibleNeutral Animations.scaleInUp ∧
    Animations.hiddenVisibleNeutral Animations.slideInLeft ∧
    Animations.hiddenVisibleNeutral Animations.slideInRight ∧
    Animations.hiddenVisibleNeutral Animations.slideInUp ∧
    Animations.hiddenVisibleNeutral Animations.slideInDown ∧
    Animations.hiddenVisibleNeutral Animations.staggerContainer ∧
    Animations.hiddenVisibleNeutral Animations.staggerItem ∧
    Animations.hiddenVisibleNeutral Animations.blur ∧
    Animations.hiddenVisibleNeutral Animations.rotateVariant := by
  simp only [Animations.hiddenVisibleNeutral, Animations.fadeIn, Animations.fadeInUp,
    Animations.fadeInDown, Animations.fadeInLeft, Animations.fadeInRight, Animations.scaleIn,
    Animations.scaleInUp, Animations.slideInLeft, Animations.slideInRight, Animations.slideInUp,
    Animations.slideInDown, Animations.staggerContainer, Animations.staggerItem, Animations.blur,
    Animations.rotateVariant]
  simp

namespace FaqSection

/-! ## `src/components/sections/faq-section.tsx` -/

/-- The badge `<span>` rendered when the optional `badge` prop is present. -/
def badgeSpan (b : String) : Html :=
  .el "span"
    [("className", "inline-flex items-center rounded-full border border-primary/20 bg-primary/10 px-4 py-1.5 text-sm font-medium text-primary mb-4")]
    [.text b]

/-- The section title heading. -/
def titleH2 (t : String) : Html :=
  .el "h2" [("className", "text-3xl font-bold tracking-tight sm:text-4xl lg:text-5xl mb-4")]
    [.text t]

/-- The description paragraph rendered when `description` is present. -/
def descriptionP (d : String) : Html :=
  .el "p" [("className", "text-lg text-muted-foreground")] [.text d]

/-- Children of the section-header `motion.div`:
`{badge && <span/>} <h2>{title}</h2> {description && <p/>}`. -/
def headerChildren (badge : Option String) (title : String) (description : Option String) :
    List Html :=
  optHtml badge badgeSpan ++ [titleH2 title] ++ optHtml description descriptionP

/-- One accordion item of the FAQ list, keyed by array position. -/
def accordionItem (index : Nat) (f : Faq) : Html :=
  .el "AccordionItem"
    [("value", "item-" ++ toString index), ("className", "border rounded-lg px-6 bg-card")]
    [ .el "AccordionTrigger" [("className", "text-left hover:no-underline py-4")]
        [.el "span" [("className", "font-semibold")] [.text f.question]],
      .el "AccordionContent" [("className", "text-muted-foreground pb-4")] [.text f.answer] ]

/-- The accordion over `faqs.map((faq, index) => ...)`. -/
def accordion (faqs : List Faq) : Html :=
  .el "Accordion" [("type", "single"), ("collapsible", "true"), ("className", "space-y-4")]
    (faqs.enum.map (fun p => accordionItem p.1 p.2))

/-- The section tree as a function of the already-computed header children:
used to state that everything outside the header is independent of the
optional `badge` and `description` props. -/
def assemble (hdr : List Html) (faqs : List Faq) : Html :=
  .el "section" [("className", "py-20 sm:py-32 bg-secondary/30")]
    [ .el "div" [("className", "container mx-auto px-4")]
        [ .el "motion.div" [("className", "mx-auto max-w-2xl text-center mb-16")] hdr,
          .el "motion.div" [("className", "mx-auto max-w-3xl")] [accordion faqs] ] ]

/-- The `FaqSection` component as a view function of its props. -/
def render (badge : Option String) (title : String) (description : Option String)
    (faqs : List Faq) : Html :=
  .el "section" [("className", "py-20 sm:py-32 bg-secondary/30")]
    [ .el "div" [("className", "container mx-auto px-4")]
        [ .el "motion.div" [("className", "mx-auto max-w-2xl text-center mb-16")]
            (optHtml badge badgeSpan ++ [titleH2 title] ++ optHtml description descriptionP),
          .el "motion.div" [("className", "mx-auto max-w-3xl")] [accordion faqs] ] ]

end FaqSection

namespace HeroSection

/-! ## `src/components/sections/hero-section.tsx`

The destructuring `badge = "New Release"` gives the optional `badge` prop a
default, so the badge `<span>` is rendered unconditionally. -/

/-- The badge `<span>` (always rendered, with the defaulted badge text). -/
def badgeSpan (b : String) : Html :=
  .el "span"
    [("className", "inline-flex items-center rounded-full border border-primary/20 bg-primary/10 px-4 py-1.5 text-sm font-medium text-primary")]
    [.text b]

/-- The `motion.div` wrapper around the badge span. -/
def badgeWrapper (b : String) : Html :=
  .el "motion.div" [("className", "mb-8 inline-block")] [badgeSpan b]

def titleH1 (t : String) : Html :=
  .el "motion.h1" [("className", "mb-6 text-4xl font-bold tracking-tight sm:text-6xl lg:text-7xl")]
    [.text t]

def descriptionP (d : String) : Html :=
  .el "motion.p" [("className", "mb-10 text-lg text-muted-foreground sm:text-xl")] [.text d]

/-- The primary CTA button (always rendered). -/
def primaryButton (c : Cta) : Html :=
  .el "Button" [("size", "lg"), ("className", "text-base")]
    [.el "a" [("href", c.href)] [.text c.text, .el "ArrowRight" [("className", "ml-2 size-4")] []]]

/-- The secondary CTA button, rendered only when `secondaryCta` is present. -/
def secondaryButton (c : Cta) : Html :=
  .el "Button" [("variant", "outline"), ("size", "lg"), ("className", "text-base")]
    [.el "a" [("href", c.href)] [.el "Play" [("className", "mr-2 size-4")] [], .text c.text]]

/-- Children of the CTA row: `<Button.../> {secondaryCta && <Button.../>}`. -/
def ctaRowChildren (primaryCta : Cta) (secondaryCta : Option Cta) : List Html :=
  [primaryButton primaryCta] ++ optHtml secondaryCta secondaryButton

/-- Children of the headline `motion.div` (stagger container). -/
def headerChildren (badge : Option String) (title description : String) (primaryCta : Cta)
    (secondaryCta : Option Cta) : List Html :=
  [ badgeWrapper (badge.getD "New Release"),
    titleH1 title,
    descriptionP description,
    .el "motion.div" [("className", "flex flex-col gap-4 sm:flex-row sm:justify-center")]
      (ctaRowChildren primaryCta secondaryCta) ]

/-- The hero image block, rendered only when `image` is present. -/
def imageBlock (img : String) : Html :=
  .el "motion.div" [("className", "mt-16 sm:mt-24")]
    [ .el "div" [("className", "relative rounded-xl border bg-card shadow-2xl")]
        [.el "img" [("src", img), ("alt", "Hero"), ("className", "w-full rounded-xl")] []] ]

/-- The background decoration `div` (static). -/
def backgroundDecoration : Html :=
  .el "div" [("className", "absolute inset-0 -z-10 overflow-hidden")]
    [ .el "div" [("className", "absolute left-1/2 top-0 -translate-x-1/2 blur-3xl opacity-20")]
        [.el "div" [("className", "aspect-[1155/678] w-[72.1875rem] bg-gradient-to-tr from-primary to-accent")] []] ]

/-- The section tree as a function of the header children and of the
(possibly empty) image-block list. -/
def assemble (hdr : List Html) (imageChildren : List Html) : Html :=
  .el "section"
    [("className", "relative overflow-hidden bg-gradient-to-b from-background to-secondary/20 py-20 sm:py-32")]
    [ backgroundDecoration,
      .el "div" [("className", "container mx-auto px-4")]
        ([.el "motion.div" [("className", "mx-auto max-w-4xl text-center")] hdr] ++ imageChildren) ]

/-- The `HeroSection` component as a view function of its props (`badge` defaulting to
`"New Release"` as in the source destructuring). -/
def render (badge : Option String) (title description : String) (primaryCta : Cta)
    (secondaryCta : Option Cta) (image : Option String) : Html :=
  .el "section"
    [("className", "relative overflow-hidden bg-gradient-to-b from-background to-secondary/20 py-20 sm:py-32")]
    [ backgroundDecoration,
      .el "div" [("className", "container mx-auto px-4")]
        ([.el "motion.div" [("className", "mx-auto max-w-4xl text-center")]
            (headerChildren badge title description primaryCta secondaryCta)]
          ++ optHtml image imageBlock) ]

end HeroSection

/-- C6 (counterexample): `HeroSection` gives the optional `badge` prop the
destructuring default `"New Release"`, so omitting `badge` renders the same
tree as supplying `"New Release"` — a badge span is rendered, not nothing.
-/
theorem c6_counterexample_hero_badge_default :
    HeroSection.render none "Title" "Desc" ⟨"Go", "/go"⟩ none none
        = HeroSection.render (some "New Release") "Title" "Desc" ⟨"Go", "/go"⟩ none none ∧
    (HeroSection.headerChildren none "Title" "Desc" ⟨"Go", "/go"⟩ none).head?
        = some (HeroSection.badgeWrapper "New Release") := by
  exact ⟨rfl, rfl⟩

/-- C6 (amended): for optional display props without a destructuring
default, omission renders nothing in that prop's place and leaves the rest
of the output unchanged: `FaqSection` with `badge` or `description` omitted
renders no badge span and no description paragraph, and `HeroSection` with
`secondaryCta` or `image` omitted renders no secondary button and no image
block; but `HeroSection`'s `badge` defaults to `"New Release"`, so omitting
it renders the default badge span rather than nothing. -/
theorem c6_optional_props_conditional_rendering
    (b t d ti de img : String) (bg ds : Option String) (p s : Cta) (sc : Option Cta)
    (io : Option String) (fs : List Faq) :
    -- FaqSection factors through its header; the accordion part is untouched
    FaqSection.render bg t ds fs = FaqSection.assemble (FaqSection.headerChildren bg t ds) fs ∧
    -- supplying badge only prepends the badge span to the header
    FaqSection.headerChildren (some b) t ds
        = FaqSection.badgeSpan b :: FaqSection.headerChildren none t ds ∧
    -- with badge and description omitted the header is just the title
    FaqSection.headerChildren none t none = [FaqSection.titleH2 t] ∧
    -- supplying description only appends the description paragraph
    FaqSection.headerChildren none t (some d)
        = [FaqSection.titleH2 t, FaqSection.descriptionP d] ∧
    -- HeroSection CTA row: secondary button present exactly when supplied
    HeroSection.ctaRowChildren p (some s)
        = [HeroSection.primaryButton p, HeroSection.secondaryButton s] ∧
    HeroSection.ctaRowChildren p none = [HeroSection.primaryButton p] ∧
    -- HeroSection factors through header and optional image block
    HeroSection.render bg ti de p sc (some img)
        = HeroSection.assemble (HeroSection.headerChildren bg ti de p sc)
            [HeroSection.imageBlock img] ∧
    HeroSection.render bg ti de p sc none
        = HeroSection.assemble (HeroSection.headerChildren bg ti de p sc) [] ∧
    -- the exception the counterexample forces: badge omission = default badge
    HeroSection.render none ti de p sc io
        = HeroSection.render (some "New Release") ti de p sc io := by
  refine ⟨rfl, rfl, rfl, rfl, rfl, rfl, rfl, rfl, rfl⟩

namespace FaqSearchable

/-! ## `FaqSectionSearchable` (`src/components/sections/variants/faq-searchable.tsx`)

JavaScript strings are modelled as lists of characters; `toLowerCase`
becomes a character-wise `Char.toLower` map and `String.prototype.includes`
a contiguous-substring test. -/

/-- The value `searchQuery.toLowerCase()` (and likewise for the FAQ fields), as the
character list it is compared over. -/
def lcChars (s : String) : List Char := s.data.map Char.toLower

/-- Whether `pat` occurs at the very start of `s`. -/
def strHasPre : List Char → List Char → Bool
  | [], _ => true
  | _ :: _, [] => false
  | a :: as, b :: bs => a == b && strHasPre as bs

/-- JavaScript `s.includes(pat)`: `pat` occurs contiguously somewhere in `s`. -/
def jsIncludes (s pat : List Char) : Bool :=
  match s with
  | [] => strHasPre pat []
  | _ :: t => strHasPre pat s || jsIncludes t pat

/-- The filter predicate of `filteredFaqs`:
`faq.question.toLowerCase().includes(q.toLowerCase()) ||
 faq.answer.toLowerCase().includes(q.toLowerCase())`. -/
def faqMatches (searchQuery : String) (f : Faq) : Bool :=
  jsIncludes (lcChars f.question) (lcChars searchQuery) ||
  jsIncludes (lcChars f.answer) (lcChars searchQuery)

/-- The component's `const filteredFaqs = faqs.filter(...)`. -/
def filteredFaqs (faqs : List Faq) (searchQuery : String) : List Faq :=
  faqs.filter (faqMatches searchQuery)

/-- The static "no results" block rendered when the filter is empty. -/
def noResultsBlock (searchQuery : String) : Html :=
  .el "div" [("className", "text-center py-12")]
    [ .el "p" [("className", "text-muted-foreground text-lg")]
        [.text ("No results found for \"" ++ searchQuery ++ "\"")],
      .el "p" [("className", "text-sm text-muted-foreground mt-2")]
        [.text "Try searching with different keywords"] ]

/-- The accordion over the filtered FAQs (markup identical to
`FaqSection`'s accordion, keyed by position in the filtered list). -/
def accordionBlock (fs : List Faq) : Html :=
  .el "Accordion" [("type", "single"), ("collapsible", "true"), ("className", "space-y-4")]
    (fs.enum.map (fun p => FaqSection.accordionItem p.1 p.2))

/-- The conditional `filteredFaqs.length > 0 ? <Accordion .../> : <no-results/>`. -/
def resultsBlock (faqs : List Faq) (searchQuery : String) : Html :=
  if 0 < (filteredFaqs faqs searchQuery).length then
    accordionBlock (filteredFaqs faqs searchQuery)
  else
    noResultsBlock searchQuery

/-- The search input, reflecting the controlled `searchQuery` state. -/
def searchBar (searchQuery : String) : Html :=
  .el "div" [("className", "relative")]
    [ .el "Search" [("className", "absolute left-4 top-1/2 -translate-y-1/2 size-5 text-muted-foreground")] [],
      .el "Input"
        [("type", "text"), ("placeholder", "Search frequently asked questions..."),
         ("value", searchQuery), ("className", "pl-12 h-14 text-base")] [] ]

/-- The `FaqSectionSearchable` component as a view function of its props and of the
current `searchQuery` state. -/
def render (badge : Option String) (title : String) (description : Option String)
    (faqs : List Faq) (searchQuery : String) : Html :=
  .el "section" [("className", "py-20 sm:py-32 bg-secondary/30")]
    [ .el "div" [("className", "container mx-auto px-4")]
        [ .el "motion.div" [("className", "mx-auto max-w-2xl text-center mb-12")]
            (optHtml badge FaqSection.badgeSpan ++ [FaqSection.titleH2 title]
              ++ optHtml description FaqSection.descriptionP),
          .el "motion.div" [("className", "mx-auto max-w-3xl mb-12")] [searchBar searchQuery],
          .el "motion.div" [("className", "mx-auto max-w-3xl")]
            [resultsBlock faqs searchQuery] ] ]

theorem strHasPre_nil_pat (s : List Char) : strHasPre [] s = true := rfl

/-- If a pattern extended on the right matches at the start, so does the
original pattern. -/
theorem strHasPre_of_append {p t s : List Char}
    (h : strHasPre (p ++ t) s = true) : strHasPre p s = true := by
  induction p generalizing s with
  | nil => exact rfl
  | cons a as ih =>
    cases s with
    | nil => simp [strHasPre] at h
    | cons b bs =>
      simp only [List.cons_append, strHasPre, Bool.and_eq_true] at h ⊢
      exact ⟨h.1, ih h.2⟩

/-- If a pattern extended on the right occurs in `s`, so does the original
pattern. -/
theorem jsIncludes_of_append {s p t : List Char}
    (h : jsIncludes s (p ++ t) = true) : jsIncludes s p = true := by
  induction s with
  | nil => exact strHasPre_of_append h
  | cons c cs ih =>
    simp only [jsIncludes, Bool.or_eq_true] at h ⊢
    rcases h with h | h
    · exact Or.inl (strHasPre_of_append h)
    · exact Or.inr (ih h)

/-- Every string contains the empty pattern (`s.includes("") === true`). -/
theorem jsIncludes_nil_pat (s : List Char) : jsIncludes s [] = true := by
  cases s <;> simp [jsIncludes, strHasPre]

/-- The empty search query matches every FAQ. -/
theorem faqMatches_empty (f : Faq) : faqMatches "" f = true := by
  simp only [faqMatches, lcChars, Bool.or_eq_true]
  exact Or.inl (jsIncludes_nil_pat _)

/-- The filtered list is always an order-preserving sublist of the input. -/
theorem filteredFaqs_sublist (faqs : List Faq) (q : String) :
    (filteredFaqs faqs q).Sublist faqs :=
  List.filter_sublist faqs

end FaqSearchable

/-- C2: `FaqSectionSearchable` renders exactly the FAQs whose question or
answer contains the search string case-insensitively, in their original
order, and renders the static "no results" block in place of the accordion
if and only if no FAQ matches. -/
theorem c2_faq_searchable_filter_and_no_results (faqs : List Faq) (q : String) :
    (∀ f : Faq, f ∈ FaqSearchable.filteredFaqs faqs q ↔
        f ∈ faqs ∧ FaqSearchable.faqMatches q f = true) ∧
    (FaqSearchable.filteredFaqs faqs q).Sublist faqs ∧
    (0 < (FaqSearchable.filteredFaqs faqs q).length →
      FaqSearchable.resultsBlock faqs q
        = FaqSearchable.accordionBlock (FaqSearchable.filteredFaqs faqs q)) ∧
    (FaqSearchable.resultsBlock faqs q = FaqSearchable.noResultsBlock q ↔
      ∀ f ∈ faqs, FaqSearchable.faqMatches q f = false) := by
  refine ⟨fun f => List.mem_filter, FaqSearchable.filteredFaqs_sublist faqs q, ?_, ?_⟩
  · intro h
    simp only [FaqSearchable.resultsBlock, if_pos h]
  · by_cases h : 0 < (FaqSearchable.filteredFaqs faqs q).length
    · rcases List.exists_mem_of_length_pos h with ⟨f, hf⟩
      rcases List.mem_filter.mp hf with ⟨hmem, hmatch⟩
      simp only [FaqSearchable.resultsBlock, if_pos h]
      constructor
      · intro heq
        exact absurd (congrArg (fun x => match x with | .el t _ _ => t | .text _ => "") heq)
          (by simp [FaqSearchable.accordionBlock, FaqSearchable.noResultsBlock])
      · intro hall
        exact absurd hmatch (by simp [hall f hmem])
    · have hnil : FaqSearchable.filteredFaqs faqs q = [] := by
        cases hf : FaqSearchable.filteredFaqs faqs q with
        | nil => rfl
        | cons a l => rw [hf] at h; simp at h
      simp only [FaqSearchable.resultsBlock, if_neg h, true_iff]
      intro f hf
      by_contra hne
      have : f ∈ FaqSearchable.filteredFaqs faqs q :=
        List.mem_filter.mpr ⟨hf, by revert hne; cases FaqSearchable.faqMatches q f <;> simp⟩
      rw [hnil] at this
      exact absurd this (List.not_mem_nil f)

/-- C2 witness: on a concrete FAQ list, a query matching one FAQ renders
the accordion with exactly that FAQ, and a query matching none renders the
no-results block. -/
theorem c2_faq_searchable_filter_and_no_results_witness :
    FaqSearchable.resultsBlock [⟨"How do I reset?", "Click the link."⟩] "RESET"
      = FaqSearchable.accordionBlock [⟨"How do I reset?", "Click the link."⟩] ∧
    (FaqSearchable.resultsBlock [⟨"How do I reset?", "Click the link."⟩] "billing"
      = FaqSearchable.noResultsBlock "billing") := by
  constructor
  · have h := (c2_faq_searchable_filter_and_no_results
      [⟨"How do I reset?", "Click the link."⟩] "RESET").2.2.1 (by decide)
    rw [h]
    congr 1
  · exact (c2_faq_searchable_filter_and_no_results
      [⟨"How do I reset?", "Click the link."⟩] "billing").2.2.2.mpr (by decide)

/-- Lowercasing maps a string-prefix relation to a character-list prefix
relation. -/
theorem lcChars_append_of_data {q q' : String} (h : q.data <+: q'.data) :
    ∃ t, FaqSearchable.lcChars q' = FaqSearchable.lcChars q ++ t := by
  rcases h with ⟨t, ht⟩
  exact ⟨t.map Char.toLower, by simp [FaqSearchable.lcChars, ← ht]⟩

/-- A FAQ matched by a longer query is matched by any query it extends. -/
theorem faqMatches_mono {q q' : String} (h : q.data <+: q'.data) (f : Faq)
    (hm : FaqSearchable.faqMatches q' f = true) : FaqSearchable.faqMatches q f = true := by
  rcases lcChars_append_of_data h with ⟨t, ht⟩
  simp only [FaqSearchable.faqMatches, Bool.or_eq_true, ht] at hm ⊢
  rcases hm with hm | hm
  · exact Or.inl (FaqSearchable.jsIncludes_of_append hm)
  · exact Or.inr (FaqSearchable.jsIncludes_of_append hm)

/-- C9: the FAQ search filter with the empty query is the identity on the
FAQ list; for every query the filtered list is an order-preserving sublist
of the input; and extending a query on the right never adds entries: every
FAQ kept by the longer query was already kept by the shorter one. -/
theorem c9_faq_filter_identity_and_monotone (faqs : List Faq) :
    FaqSearchable.filteredFaqs faqs "" = faqs ∧
    (∀ q, (FaqSearchable.filteredFaqs faqs q).Sublist faqs) ∧
    (∀ q q' : String, q.data <+: q'.data →
      ∀ f ∈ FaqSearchable.filteredFaqs faqs q', f ∈ FaqSearchable.filteredFaqs faqs q) := by
  refine ⟨?_, fun q => FaqSearchable.filteredFaqs_sublist faqs q, ?_⟩
  · exact List.filter_eq_self.mpr (fun f _ => FaqSearchable.faqMatches_empty f)
  · intro q q' hpre f hf
    rcases List.mem_filter.mp hf with ⟨hmem, hmatch⟩
    exact List.mem_filter.mpr ⟨hmem, faqMatches_mono hpre f hmatch⟩

/-- C9 witness: `"al"` is a prefix of `"alp"`; the FAQ kept by the longer
query `"alp"` is kept by `"al"` as well. -/
theorem c9_faq_filter_identity_and_monotone_witness :
    (⟨"Alpha question", "A"⟩ : Faq) ∈
      FaqSearchable.filteredFaqs [⟨"Alpha question", "A"⟩, ⟨"Beta", "B"⟩] "al" :=
  (c9_faq_filter_identity_and_monotone [⟨"Alpha question", "A"⟩, ⟨"Beta", "B"⟩]).2.2
    "al" "alp" ⟨['p'], by decide⟩ ⟨"Alpha question", "A"⟩ (by decide)

namespace NavbarCentered

/-! ## `NavbarCentered` (`src/components/sections/variants/navbar-centered.tsx`) -/

/-- A navigation link, the `NavLink` interface of the navbar variants. -/
structure NavLink where
  label : String
  href : String
deriving DecidableEq

/-- The split point `Math.ceil(links.length / 2)` of the default halving. -/
def splitPoint (links : List NavLink) : Nat := (links.length + 1) / 2

/-- The group `const left = leftLinks || links.slice(0, Math.ceil(links.length / 2))`. -/
def leftGroup (links : List NavLink) (leftLinks : Option (List NavLink)) : List NavLink :=
  leftLinks.getD (links.take (splitPoint links))

/-- The group `const right = rightLinks || links.slice(Math.ceil(links.length / 2))`. -/
def rightGroup (links : List NavLink) (rightLinks : Option (List NavLink)) : List NavLink :=
  rightLinks.getD (links.drop (splitPoint links))

/-- A desktop navigation anchor. -/
def desktopLink (l : NavLink) : Html :=
  .el "a"
    [("href", l.href), ("className", "text-sm font-medium text-muted-foreground transition-colors hover:text-primary")]
    [.text l.label]

/-- A mobile-menu navigation anchor. -/
def mobileLink (l : NavLink) : Html :=
  .el "a"
    [("href", l.href), ("className", "text-lg font-medium text-muted-foreground transition-colors hover:text-primary")]
    [.text l.label]

/-- The anchors of the mobile sheet menu: `[...left, ...right].map(...)`. -/
def mobileMenuLinks (links : List NavLink) (leftLinks rightLinks : Option (List NavLink)) :
    List Html :=
  (leftGroup links leftLinks ++ rightGroup links rightLinks).map mobileLink

/-- The `NavbarCentered` component as a view function of its props and of the mobile
sheet-open state. -/
def render (brandName : String) (links : List NavLink)
    (leftLinks rightLinks : Option (List NavLink)) (ctaButton : Option Cta)
    (isOpen : Bool) : Html :=
  .el "header"
    [("className", "sticky top-0 z-50 w-full border-b bg-background/95 backdrop-blur supports-[backdrop-filter]:bg-background/60")]
    [ .el "nav" [("className", "container mx-auto flex h-16 items-center justify-between px-4")]
        [ .el "div" [("className", "hidden md:flex md:items-center md:gap-6")]
            ((leftGroup links leftLinks).map desktopLink),
          .el "a" [("href", "/"), ("className", "flex items-center space-x-2 md:absolute md:left-1/2 md:-translate-x-1/2")]
            [.el "span" [("className", "text-xl font-bold")] [.text brandName]],
          .el "div" [("className", "hidden md:flex md:items-center md:gap-6")]
            ((rightGroup links rightLinks).map desktopLink
              ++ optHtml ctaButton (fun c =>
                  .el "Button" [("size", "sm")] [.el "a" [("href", c.href)] [.text c.text]])),
          .el "Sheet" [("open", if isOpen then "true" else "false")]
            [ .el "SheetContent" [("side", "right"), ("className", "w-[300px] sm:w-[400px]")]
                [ .el "nav" [("className", "flex flex-col gap-4 mt-8 px-2")]
                    (mobileMenuLinks links leftLinks rightLinks
                      ++ optHtml ctaButton (fun c =>
                          .el "Button" [("className", "mt-4")]
                            [.el "a" [("href", c.href)] [.text c.text]])) ] ] ] ]

end NavbarCentered

/-- C3: with `leftLinks` and `rightLinks` omitted, `NavbarCentered` splits
the `links` array in half: the left group is the first ⌈n/2⌉ links, the
right group the remaining ⌊n/2⌋ links, and their concatenation — the list
the mobile menu renders — is exactly the original array, in order, with no
link duplicated or dropped. -/
theorem c3_navbar_centered_split (links : List NavbarCentered.NavLink) :
    NavbarCentered.leftGroup links none = links.take ((links.length + 1) / 2) ∧
    NavbarCentered.rightGroup links none = links.drop ((links.length + 1) / 2) ∧
    (NavbarCentered.leftGroup links none).length = (links.length + 1) / 2 ∧
    (NavbarCentered.rightGroup links none).length = links.length / 2 ∧
    NavbarCentered.leftGroup links none ++ NavbarCentered.rightGroup links none = links ∧
    NavbarCentered.mobileMenuLinks links none none
      = links.map NavbarCentered.mobileLink := by
  refine ⟨rfl, rfl, ?_, ?_, List.take_append_drop _ _, ?_⟩
  · simp only [NavbarCentered.leftGroup, NavbarCentered.splitPoint, Option.getD_none,
      List.length_take]
    omega
  · simp only [NavbarCentered.rightGroup, NavbarCentered.splitPoint, Option.getD_none,
      List.length_drop]
    omega
  · unfold NavbarCentered.mobileMenuLinks NavbarCentered.leftGroup NavbarCentered.rightGroup
    simp only [Option.getD_none]
    rw [List.take_append_drop]

namespace Testimonials

/-! ## Testimonials components
(`src/components/sections/testimonials-section.tsx`,
`variants/testimonials-carousel.tsx`, `variants/testimonials-masonry.tsx`)

All three declare the same `Testimonial` interface; the star rating is a
JavaScript number, modelled as an integer (the values the claims discuss).
-/

/-- The `Testimonial` interface. -/
structure Testimonial where
  name : String
  role : String
  company : String
  avatar : Option String
  rating : Int
  content : String
deriving DecidableEq

/-- One `<Star/>` icon: its class is
`` `${sizeClass} ${filled ? "fill-yellow-400 text-yellow-400" : "fill-muted text-muted"}` ``. -/
def starIcon (sizeClass : String) (filled : Bool) : Html :=
  .el "Star"
    [("className", sizeClass ++ " " ++
        (if filled then "fill-yellow-400 text-yellow-400" else "fill-muted text-muted"))]
    []

/-- Which of the five stars are filled:
`Array.from({ length: 5 }).map((_, i) => i < testimonial.rating ...)`. -/
def starFilledFlags (rating : Int) : List Bool :=
  (List.range 5).map (fun (i : Nat) => decide ((i : Int) < rating))

/-- The five `<Star/>` icons of a rating row (`size-4` in the grid and
masonry cards, `size-5` in the carousel card). -/
def ratingStars (sizeClass : String) (rating : Int) : List Html :=
  (List.range 5).map (fun (i : Nat) => starIcon sizeClass (decide ((i : Int) < rating)))

end Testimonials

theorem starFilledFlags_eq_explicit (rating : Int) :
    Testimonials.starFilledFlags rating
      = [decide ((0 : Int) < rating), decide ((1 : Int) < rating), decide ((2 : Int) < rating),
         decide ((3 : Int) < rating), decide ((4 : Int) < rating)] := by
  simp [Testimonials.starFilledFlags, List.range_succ]

/-- C7: the testimonial components render exactly 5 star icons with no
runtime validation of `rating`: star `i` (0-based) is filled iff
`i < rating`; an integer rating in `[0,5]` fills exactly `rating` stars, a
rating above 5 fills all 5, and a negative rating fills none — the input is
never clamped or rejected. -/
theorem c7_star_rating_no_validation (rating : Int) :
    (∀ sizeClass, (Testimonials.ratingStars sizeClass rating).length = 5) ∧
    (∀ sizeClass, Testimonials.ratingStars sizeClass rating
        = (Testimonials.starFilledFlags rating).map (Testimonials.starIcon sizeClass)) ∧
    (∀ i : Nat, i < 5 →
      ((Testimonials.starFilledFlags rating).get? i = some true ↔ (i : Int) < rating)) ∧
    (0 ≤ rating → rating ≤ 5 →
      ((Testimonials.starFilledFlags rating).count true : Int) = rating) ∧
    (5 < rating → (Testimonials.starFilledFlags rating).count true = 5) ∧
    (rating < 0 → (Testimonials.starFilledFlags rating).count true = 0) := by
  refine ⟨?_, ?_, ?_, ?_, ?_, ?_⟩
  · intro sizeClass
    rw [Testimonials.ratingStars, List.length_map, List.length_range]
  · intro sizeClass
    simp [Testimonials.ratingStars, Testimonials.starFilledFlags, List.map_map]
  · intro i hi
    have : i = 0 ∨ i = 1 ∨ i = 2 ∨ i = 3 ∨ i = 4 := by omega
    rw [starFilledFlags_eq_explicit]
    rcases this with rfl | rfl | rfl | rfl | rfl <;>
      simp
  · intro h0 h5
    have : rating = 0 ∨ rating = 1 ∨ rating = 2 ∨ rating = 3 ∨ rating = 4 ∨ rating = 5 := by
      omega
    rcases this with rfl | rfl | rfl | rfl | rfl | rfl <;> decide
  · intro h
    rw [starFilledFlags_eq_explicit]
    have h0 : ((0 : Int) < rating) := by omega
    have h1 : ((1 : Int) < rating) := by omega
    have h2 : ((2 : Int) < rating) := by omega
    have h3 : ((3 : Int) < rating) := by omega
    have h4 : ((4 : Int) < rating) := by omega
    simp [h0, h1, h2, h3, h4]
  · intro h
    rw [starFilledFlags_eq_explicit]
    have h0 : ¬ ((0 : Int) < rating) := by omega
    have h1 : ¬ ((1 : Int) < rating) := by omega
    have h2 : ¬ ((2 : Int) < rating) := by omega
    have h3 : ¬ ((3 : Int) < rating) := by omega
    have h4 : ¬ ((4 : Int) < rating) := by omega
    simp [h0, h1, h2, h3, h4]

/-- C7 witness: concrete ratings 3, 7 and −2 fill 3, 5 and 0 stars, and
star 1 is filled for rating 3. -/
theorem c7_star_rating_no_validation_witness :
    ((Testimonials.starFilledFlags 3).count true : Int) = 3 ∧
    (Testimonials.starFilledFlags 7).count true = 5 ∧
    (Testimonials.starFilledFlags (-2)).count true = 0 ∧
    ((Testimonials.starFilledFlags 3).get? 1 = some true ↔ (1 : Int) < 3) :=
  ⟨(c7_star_rating_no_validation 3).2.2.2.1 (by decide) (by decide),
   (c7_star_rating_no_validation 7).2.2.2.2.1 (by decide),
   (c7_star_rating_no_validation (-2)).2.2.2.2.2 (by decide),
   (c7_star_rating_no_validation 3).2.2.1 1 (by decide)⟩

/-- JavaScript `String.prototype.split(" ")` over a character list:
splits at every single space, so consecutive or leading/trailing spaces
produce empty words, and the empty string yields one empty word. -/
def splitOnSpace : List Char → List (List Char)
  | [] => [[]]
  | c :: rest =>
    match splitOnSpace rest with
    | [] => [[]]
    | w :: ws => if c = ' ' then [] :: w :: ws else (c :: w) :: ws

namespace TestimonialsGrid

/-! ### `TestimonialsSection` (grid), avatar fallback -/

/-- The expression `testimonial.name.split(" ").map((n) => n[0]).join("")` as written in
`testimonials-section.tsx` (an empty word's `n[0]` is `undefined`, which
`join` renders as the empty string). -/
def avatarFallbackText (t : Testimonials.Testimonial) : String :=
  String.mk (((splitOnSpace t.name.data).map (fun n =>
    match n with
    | [] => ([] : List Char)
    | c :: _ => [c])).flatten)

/-- The author block of a grid testimonial card: avatar (image plus
initials fallback), name, and "role at company". -/
def authorBlock (t : Testimonials.Testimonial) : Html :=
  .el "div" [("className", "flex items-center gap-3")]
    [ .el "Avatar" []
        [ .el "AvatarImage"
            ([("alt", t.name)] ++ (match t.avatar with | none => [] | some a => [("src", a)])) [],
          .el "AvatarFallback" [] [.text (avatarFallbackText t)] ],
      .el "div" []
        [ .el "div" [("className", "font-semibold")] [.text t.name],
          .el "div" [("className", "text-sm text-muted-foreground")]
            [.text (t.role ++ " at " ++ t.company)] ] ]

/-- A grid testimonial card: rating row (`size-4` stars), quote, author. -/
def card (t : Testimonials.Testimonial) : Html :=
  .el "Card" [("className", "h-full border-2 transition-all hover:border-primary/50 hover:shadow-lg")]
    [ .el "CardContent" [("className", "p-6")]
        [ .el "div" [("className", "mb-4 flex gap-1")]
            (Testimonials.ratingStars "size-4" t.rating),
          .el "blockquote" [("className", "mb-6 text-muted-foreground")]
            [.text ("\"" ++ t.content ++ "\"")],
          authorBlock t ] ]

end TestimonialsGrid

namespace TestimonialsCarousel

/-! ### `TestimonialsSectionCarousel` (`variants/testimonials-carousel.tsx`) -/

/-- The identical initials expression as written in the carousel card. -/
def avatarFallbackText (t : Testimonials.Testimonial) : String :=
  String.mk (((splitOnSpace t.name.data).map (fun n =>
    match n with
    | [] => ([] : List Char)
    | c :: _ => [c])).flatten)

/-- A carousel state transition: the three kinds of `setCurrentIndex`
updates the component installs (next and previous arrows, dot buttons). -/
inductive Op where
  | next
  | prev
  | dot (j : Nat)
deriving DecidableEq

/-- The update `next`: `(prev + 1) % testimonials.length`;
`previous`: `(prev - 1 + testimonials.length) % testimonials.length`;
a dot button: `setCurrentIndex(index)`.  JavaScript `%` is the truncating
remainder, `Int.tmod`. -/
def step (len : Nat) (i : Int) : Op → Int
  | .next => (i + 1).tmod len
  | .prev => (i - 1 + len).tmod len
  | .dot j => j

/-- Which updates the rendered component can actually fire: one dot button
exists per testimonial index; the arrows always exist. -/
def opValid (len : Nat) : Op → Bool
  | .dot j => j < len
  | _ => true

/-- The carousel index after a sequence of updates, starting from the
`useState(0)` initial state. -/
def run (len : Nat) (ops : List Op) : Int :=
  ops.foldl (step len) 0

/-- For a nonnegative dividend and positive divisor the truncating
remainder lies in `[0, divisor)`. -/
theorem tmod_bounds {a : Int} {n : Nat} (ha : 0 ≤ a) (hn : 0 < n) :
    0 ≤ a.tmod n ∧ a.tmod n < n := by
  obtain ⟨m, rfl⟩ := Int.eq_ofNat_of_zero_le ha
  have heq : ((m : Int)).tmod ((n : Nat) : Int) = (((m % n : Nat)) : Int) := rfl
  rw [heq]
  constructor
  · exact_mod_cast Nat.zero_le _
  · exact_mod_cast Nat.mod_lt m hn

/-- Each valid update preserves the range invariant. -/
theorem step_mem_range {len : Nat} (hlen : 0 < len) {i : Int}
    (h0 : 0 ≤ i) (_h1 : i < len) (op : Op) (hop : opValid len op = true) :
    0 ≤ step len i op ∧ step len i op < len := by
  cases op with
  | next => exact tmod_bounds (by omega) hlen
  | prev => exact tmod_bounds (by omega) hlen
  | dot j =>
    simp only [opValid, decide_eq_true_eq] at hop
    constructor
    · show (0 : Int) ≤ ((j : Nat) : Int)
      exact_mod_cast Nat.zero_le j
    · show ((j : Nat) : Int) < ((len : Nat) : Int)
      exact_mod_cast hop

/-- The invariant propagates along any sequence of valid updates. -/
theorem foldl_step_mem_range {len : Nat} (hlen : 0 < len) :
    ∀ (ops : List Op) (i : Int), 0 ≤ i → i < len →
      (∀ op ∈ ops, opValid len op = true) →
      0 ≤ ops.foldl (step len) i ∧ ops.foldl (step len) i < len := by
  intro ops
  induction ops with
  | nil => intro i h0 h1 _; exact ⟨h0, h1⟩
  | cons op rest ih =>
    intro i h0 h1 hops
    have hop := hops op (List.mem_cons_self op rest)
    have hstep := step_mem_range hlen h0 h1 op hop
    exact ih _ hstep.1 hstep.2 (fun o ho => hops o (List.mem_cons_of_mem op ho))

end TestimonialsCarousel

/-- C4: for a nonempty testimonials list, the carousel index starts at 0
and every reachable update keeps it in `[0, length)`: next maps `i` to
`(i+1) % length`, previous maps `i` to `(i-1+length) % length`, a dot
button sets its own position, and no sequence of these updates can leave
the range. -/
theorem c4_carousel_index_in_range (len : Nat) (hlen : 0 < len)
    (ops : List TestimonialsCarousel.Op)
    (hops : ∀ op ∈ ops, TestimonialsCarousel.opValid len op = true) :
    (∀ i : Int, TestimonialsCarousel.step len i .next = (i + 1).tmod len) ∧
    (∀ i : Int, TestimonialsCarousel.step len i .prev = (i - 1 + len).tmod len) ∧
    (∀ (i : Int) (j : Nat), TestimonialsCarousel.step len i (.dot j) = j) ∧
    0 ≤ TestimonialsCarousel.run len ops ∧
    TestimonialsCarousel.run len ops < len := by
  have h := TestimonialsCarousel.foldl_step_mem_range hlen ops 0 le_rfl
    (by exact_mod_cast hlen) hops
  exact ⟨fun _ => rfl, fun _ => rfl, fun _ _ => rfl, h.1, h.2⟩

/-- C4 witness: with 3 testimonials, the update sequence
next, dot 2, previous, previous leaves the index in `[0, 3)`. -/
theorem c4_carousel_index_in_range_witness :
    0 ≤ TestimonialsCarousel.run 3 [.next, .dot 2, .prev, .prev] ∧
    TestimonialsCarousel.run 3 [.next, .dot 2, .prev, .prev] < 3 :=
  ⟨(c4_carousel_index_in_range 3 (by decide) [.next, .dot 2, .prev, .prev]
      (by decide)).2.2.2.1,
   (c4_carousel_index_in_range 3 (by decide) [.next, .dot 2, .prev, .prev]
      (by decide)).2.2.2.2⟩

namespace TestimonialsMasonry

/-! ### `TestimonialsSectionMasonry` (`variants/testimonials-masonry.tsx`) -/

/-- The identical initials expression as written in the masonry card. -/
def avatarFallbackText (t : Testimonials.Testimonial) : String :=
  String.mk (((splitOnSpace t.name.data).map (fun n =>
    match n with
    | [] => ([] : List Char)
    | c :: _ => [c])).flatten)

end TestimonialsMasonry

/-- The initials computation as the claim words it: concatenate the first
character of each space-separated word of the name (an empty word
contributes nothing). -/
def initialsOfName (name : String) : String :=
  String.mk (((splitOnSpace name.data).map (fun w => w.take 1)).flatten)

/-- C10: the avatar fallback text is the concatenation of the first
character of each space-separated word of the testimonial's name, computed
identically in the grid, carousel and masonry testimonial components;
`"John Doe"` yields `"JD"`. -/
theorem c10_avatar_fallback_initials (t : Testimonials.Testimonial) :
    TestimonialsGrid.avatarFallbackText t = TestimonialsCarousel.avatarFallbackText t ∧
    TestimonialsCarousel.avatarFallbackText t = TestimonialsMasonry.avatarFallbackText t ∧
    TestimonialsGrid.avatarFallbackText t = initialsOfName t.name ∧
    TestimonialsGrid.avatarFallbackText
        ⟨"John Doe", "CEO", "Acme", none, 5, "Great product"⟩ = "JD" := by
  refine ⟨rfl, rfl, ?_, by decide⟩
  unfold TestimonialsGrid.avatarFallbackText initialsOfName
  congr 2
  apply List.map_congr_left
  intro w _
  cases w <;> rfl

namespace PricingToggle

/-! ## `PricingSectionToggle` (`src/components/sections/variants/pricing-toggle.tsx`) -/

/-- The `PricingTierWithToggle` interface: a pricing tier with separate
monthly and yearly price strings. -/
structure PricingTier where
  name : String
  monthlyPrice : String
  yearlyPrice : String
  period : String
  description : String
  features : List String
  cta : Cta
  popular : Bool := false
deriving DecidableEq

/-- The toggle click handler `() => setIsYearly(!isYearly)`. -/
def toggleClick (isYearly : Bool) : Bool := !isYearly

/-- The price string the tier card displays:
`isYearly ? tier.yearlyPrice : tier.monthlyPrice`. -/
def priceText (isYearly : Bool) (tier : PricingTier) : String :=
  if isYearly then tier.yearlyPrice else tier.monthlyPrice

/-- The discount badge shown next to the toggle while yearly is selected. -/
def discountBadge (yearlyDiscount : String) : Html :=
  .el "Badge" [("variant", "secondary"), ("className", "ml-2")] [.text yearlyDiscount]

/-- Children of the toggle row: the Monthly label, the switch, the Yearly
label, and — only while yearly is selected — the discount badge.
`yearlyDiscount` defaults to `"Save 20%"` in the destructuring. -/
def toggleRowChildren (isYearly : Bool) (yearlyDiscount : String) : List Html :=
  [ .el "span" [("className", "text-sm font-medium transition-colors " ++
        (if !isYearly then "text-foreground" else "text-muted-foreground"))]
      [.text "Monthly"],
    .el "button" [("className", "relative inline-flex h-6 w-11 items-center rounded-full transition-colors " ++
        (if isYearly then "bg-primary" else "bg-muted"))]
      [.el "span" [("className", "inline-block h-4 w-4 transform rounded-full bg-white transition-transform " ++
          (if isYearly then "translate-x-6" else "translate-x-1"))] []],
    .el "span" [("className", "text-sm font-medium transition-colors " ++
        (if isYearly then "text-foreground" else "text-muted-foreground"))]
      [.text "Yearly"] ]
  ++ (if isYearly then [discountBadge yearlyDiscount] else [])

/-- The `Billed annually` note shown under the price while yearly is
selected. -/
def billedAnnuallyNote : Html :=
  .el "div" [("className", "text-xs text-muted-foreground mt-1")] [.text "Billed annually"]

/-- Children of the price block in a tier card header: the animated price
span, the period span, and — only while yearly is selected — the
`Billed annually` note. -/
def priceBlockChildren (isYearly : Bool) (tier : PricingTier) : List Html :=
  [ .el "motion.span"
      [("key", if isYearly then "yearly" else "monthly"), ("className", "text-4xl font-bold")]
      [.text (priceText isYearly tier)],
    .el "span" [("className", "text-muted-foreground")] [.text ("/" ++ tier.period)] ]
  ++ (if isYearly then [billedAnnuallyNote] else [])

end PricingToggle

/-- C5: the pricing toggle is a single independent boolean — each click
negates it, so two clicks restore the state; the displayed price is
`yearlyPrice` exactly when the state is yearly and `monthlyPrice`
otherwise; and the discount badge and "Billed annually" note are rendered
exactly when the state is yearly. -/
theorem c5_pricing_toggle_boolean (b : Bool) (tier : PricingToggle.PricingTier)
    (yd : String) :
    PricingToggle.toggleClick (PricingToggle.toggleClick b) = b ∧
    PricingToggle.priceText true tier = tier.yearlyPrice ∧
    PricingToggle.priceText false tier = tier.monthlyPrice ∧
    (PricingToggle.billedAnnuallyNote ∈ PricingToggle.priceBlockChildren b tier ↔ b = true) ∧
    (PricingToggle.discountBadge yd ∈ PricingToggle.toggleRowChildren b yd ↔ b = true) := by
  refine ⟨Bool.not_not b, rfl, rfl, ?_, ?_⟩
  · cases b <;>
      simp [PricingToggle.priceBlockChildren, PricingToggle.billedAnnuallyNote]
  · cases b <;>
      simp [PricingToggle.toggleRowChildren, PricingToggle.discountBadge]

/-- Identifier lookup against a module's scope: a name not in scope
raises the JavaScript `ReferenceError` when the rendering code evaluates
it. -/
def lookupIdent (scope : List String) (n : String) : Except String Unit :=
  if n ∈ scope then .ok () else .error ("ReferenceError: " ++ n ++ " is not defined")

namespace HeroSplit

/-! ## `HeroSectionSplit` (`src/components/sections/variants/hero-split.tsx`)

The file brings only `fadeInLeft`, `fadeInRight` and `viewportOptions`
into scope from `@/lib/animations` (plus `motion`, `Button`, `ArrowRight`, `Play`),
yet the component body reads `transitions.default` and
`transitions.smooth`. -/

/-- The identifiers the module brings into scope. -/
def scope : List String :=
  ["motion", "Button", "fadeInLeft", "fadeInRight", "viewportOptions", "ArrowRight", "Play"]

/-- The `HeroSectionSplit` component as a (fallible) view function: evaluating
`textContent` reads `transitions.default`, which is not in scope, so every
render raises before any markup is produced. -/
def render (badge : Option String) (title description : String) (primaryCta : Cta)
    (secondaryCta : Option Cta) (image : Option String) (imagePosition : Option String) :
    Except String Html := do
  -- const textContent = <motion.div variants={fadeInLeft} ... transition={transitions.default}>
  _ ← lookupIdent scope "motion"
  _ ← lookupIdent scope "fadeInLeft"
  _ ← lookupIdent scope "viewportOptions"
  _ ← lookupIdent scope "transitions"
  let textContent : Html :=
    .el "motion.div" [("className", "flex flex-col justify-center")]
      (optHtml badge (fun b =>
          .el "div" [("className", "mb-6 inline-block")]
            [.el "span"
              [("className", "inline-flex items-center rounded-full border border-primary/20 bg-primary/10 px-4 py-1.5 text-sm font-medium text-primary")]
              [.text b]])
        ++ [ .el "h1" [("className", "mb-6 text-4xl font-bold tracking-tight sm:text-5xl lg:text-6xl")]
              [.text title],
             .el "p" [("className", "mb-8 text-lg text-muted-foreground sm:text-xl")]
              [.text description],
             .el "div" [("className", "flex flex-col gap-4 sm:flex-row")]
              ([ .el "Button" [("size", "lg"), ("className", "text-base")]
                  [.el "a" [("href", primaryCta.href)]
                    [.text primaryCta.text, .el "ArrowRight" [("className", "ml-2 size-4")] []]] ]
                ++ optHtml secondaryCta (fun c =>
                    .el "Button" [("variant", "outline"), ("size", "lg"), ("className", "text-base")]
                      [.el "a" [("href", c.href)]
                        [.el "Play" [("className", "mr-2 size-4")] [], .text c.text]])) ])
  -- const imageContent = image && <motion.div ... transition={transitions.smooth}>
  let imageContent ← match image with
    | none => pure ([] : List Html)
    | some img => do
        _ ← lookupIdent scope "transitions"
        pure [ .el "motion.div" [("className", "flex items-center justify-center")]
                [ .el "div" [("className", "relative rounded-xl border bg-card shadow-2xl overflow-hidden")]
                    [.el "img" [("src", img), ("alt", "Hero"), ("className", "w-full h-auto")] []] ] ]
  let grid : List Html :=
    if imagePosition.getD "right" = "left" then imageContent ++ [textContent]
    else [textContent] ++ imageContent
  pure (.el "section" [("className", "relative py-20 sm:py-32")]
    [ .el "div" [("className", "container mx-auto px-4")]
        [.el "div" [("className", "grid gap-12 lg:grid-cols-2 lg:gap-16 items-center")] grid] ])

end HeroSplit

namespace FooterMega

/-! ## `FooterMega` (`src/components/sections/variants/footer-mega.tsx`)

The file brings only `Github`, `Twitter`, `Linkedin` and `Youtube` into scope from
`lucide-react` (plus `Button` and `Separator`), yet the contact block
renders a `<Mail/>` icon when `contactEmail` is provided. -/

/-- A footer link (`FooterLink` interface). -/
structure FooterLink where
  label : String
  href : String
deriving DecidableEq

/-- A footer link column (`FooterColumn` interface). -/
structure FooterColumn where
  title : String
  links : List FooterLink
deriving DecidableEq

/-- The `SocialLinks` interface: four optional profile URLs. -/
structure SocialLinks where
  github : Option String := none
  twitter : Option String := none
  linkedin : Option String := none
  youtube : Option String := none
deriving DecidableEq

/-- The identifiers the module brings into scope. -/
def scope : List String :=
  ["Button", "Separator", "Github", "Twitter", "Linkedin", "Youtube"]

/-- A social icon button. -/
def socialButton (icon : String) (aria : String) (href : String) : Html :=
  .el "Button" [("variant", "ghost"), ("size", "icon")]
    [.el "a" [("href", href), ("target", "_blank"), ("rel", "noopener noreferrer"), ("aria-label", aria)]
      [.el icon [("className", "size-5")] []]]

/-- The social-links row (each button conditional on its URL). -/
def socialRow (sl : SocialLinks) : Html :=
  .el "div" [("className", "flex gap-2")]
    (optHtml sl.github (socialButton "Github" "GitHub")
      ++ optHtml sl.twitter (socialButton "Twitter" "Twitter")
      ++ optHtml sl.linkedin (socialButton "Linkedin" "LinkedIn")
      ++ optHtml sl.youtube (socialButton "Youtube" "YouTube"))

/-- A footer link column. -/
def columnBlock (col : FooterColumn) : Html :=
  .el "div" []
    [ .el "h4" [("className", "font-semibold mb-4 text-sm uppercase tracking-wider")]
        [.text col.title],
      .el "ul" [("className", "space-y-3")]
        (col.links.map (fun l =>
          .el "li" []
            [.el "a" [("href", l.href), ("className", "text-sm text-muted-foreground hover:text-primary transition-colors")]
              [.text l.label]])) ]

/-- The `FooterMega` component as a (fallible) view function: the `<Mail/>` icon is only
evaluated — and only fails — when `contactEmail` is present. -/
def render (companyName : String) (description tagline : Option String)
    (columns : List FooterColumn) (socialLinks : Option SocialLinks)
    (contactEmail address : Option String) (currentYear : Nat) :
    Except String Html := do
  let contactRows ← match contactEmail with
    | none => pure ([] : List Html)
    | some email => do
        _ ← lookupIdent scope "Mail"
        pure [ .el "div" [("className", "flex items-center gap-2 text-sm")]
                [ .el "Mail" [("className", "size-4 text-muted-foreground")] [],
                  .el "a" [("href", "mailto:" ++ email), ("className", "text-muted-foreground hover:text-primary transition-colors")]
                    [.text email] ] ]
  let contactBlock : List Html :=
    if contactEmail.isSome || address.isSome then
      [ .el "div" [("className", "space-y-3 mb-6")]
          (contactRows
            ++ optHtml address (fun a =>
                .el "p" [("className", "text-sm text-muted-foreground")] [.text a])) ]
    else []
  pure (.el "footer" [("className", "border-t bg-background")]
    [ .el "div" [("className", "container mx-auto px-4 py-16 sm:py-20")]
        [ .el "div" [("className", "grid gap-12 lg:grid-cols-5 mb-12")]
            ([ .el "div" [("className", "lg:col-span-2")]
                ([.el "h3" [("className", "text-2xl font-bold mb-3")] [.text companyName]]
                  ++ optHtml tagline (fun tl =>
                      .el "p" [("className", "text-sm font-medium text-primary mb-3")] [.text tl])
                  ++ optHtml description (fun d =>
                      .el "p" [("className", "text-sm text-muted-foreground mb-6 max-w-md")] [.text d])
                  ++ contactBlock
                  ++ optHtml socialLinks socialRow) ]
              ++ columns.map columnBlock),
          .el "Separator" [("className", "mb-8")] [],
          .el "div" [("className", "flex flex-col gap-4 sm:flex-row sm:justify-between sm:items-center")]
            [ .el "p" [("className", "text-sm text-muted-foreground")]
                [.text ("© " ++ toString currentYear ++ " " ++ companyName ++ ". All rights reserved.")],
              .el "div" [("className", "flex flex-wrap gap-6")]
                [ .el "a" [("href", "/privacy"), ("className", "text-sm text-muted-foreground hover:text-primary transition-colors")]
                    [.text "Privacy Policy"],
                  .el "a" [("href", "/terms"), ("className", "text-sm text-muted-foreground hover:text-primary transition-colors")]
                    [.text "Terms of Service"] ] ] ] ])

end FooterMega

/-- C1: the claim that every section component renders successfully for
every well-typed prop object fails: `HeroSectionSplit` reads
`transitions.default`, a name never brought into scope, so every render
raises a `ReferenceError`; and `FooterMega` reads the never-provided `Mail`
icon whenever `contactEmail` is supplied, raising a `ReferenceError` there
(it renders successfully only while `contactEmail` is omitted). -/
theorem c1_missing_identifiers_crash :
    (∀ (badge : Option String) (title description : String) (primaryCta : Cta)
        (secondaryCta : Option Cta) (image imagePosition : Option String),
      HeroSplit.render badge title description primaryCta secondaryCta image imagePosition
        = .error "ReferenceError: transitions is not defined") ∧
    FooterMega.render "Enterprise Corp" none none [] none (some "info@enterprise.com") none 2025
      = .error "ReferenceError: Mail is not defined" ∧
    (FooterMega.render "Enterprise Corp" none none [] none none none 2025).isOk = true := by
  refine ⟨fun badge title description primaryCta secondaryCta image imagePosition => rfl,
    rfl, rfl⟩

/-- C1 witness: the failing render evaluated at a concrete prop object. -/
theorem c1_missing_identifiers_crash_witness :
    HeroSplit.render none "Build Faster" "The complete solution." ⟨"Get Started", "/signup"⟩
        none none none
      = .error "ReferenceError: transitions is not defined" :=
  c1_missing_identifiers_crash.1 none "Build Faster" "The complete solution."
    ⟨"Get Started", "/signup"⟩ none none none

/-- C3 witness: a concrete three-link array splits 2 + 1 and the mobile
menu re-assembles it unchanged. -/
theorem c3_navbar_centered_split_witness :
    NavbarCentered.leftGroup
        [⟨"About", "/about"⟩, ⟨"Services", "/services"⟩, ⟨"Contact", "/contact"⟩] none
      ++ NavbarCentered.rightGroup
        [⟨"About", "/about"⟩, ⟨"Services", "/services"⟩, ⟨"Contact", "/contact"⟩] none
      = [⟨"About", "/about"⟩, ⟨"Services", "/services"⟩, ⟨"Contact", "/contact"⟩] :=
  (c3_navbar_centered_split
    [⟨"About", "/about"⟩, ⟨"Services", "/services"⟩, ⟨"Contact", "/contact"⟩]).2.2.2.2.1

/-- C5 witness: two clicks from the monthly state restore it, and the
yearly state of a concrete tier shows the yearly price. -/
theorem c5_pricing_toggle_boolean_witness :
    PricingToggle.toggleClick (PricingToggle.toggleClick false) = false ∧
    PricingToggle.priceText true
        ⟨"Pro", "$29", "$24", "month", "For professionals", [], ⟨"Get Started", "/signup"⟩, false⟩
      = "$24" :=
  ⟨(c5_pricing_toggle_boolean false
      ⟨"Pro", "$29", "$24", "month", "For professionals", [], ⟨"Get Started", "/signup"⟩, false⟩
      "Save 20%").1,
   (c5_pricing_toggle_boolean true
      ⟨"Pro", "$29", "$24", "month", "For professionals", [], ⟨"Get Started", "/signup"⟩, false⟩
      "Save 20%").2.1⟩

/-- C6 witness: with badge and description omitted, the concrete FAQ
header is the bare title, and a concrete hero CTA row with `secondaryCta`
omitted is the primary button alone. -/
theorem c6_optional_props_conditional_rendering_witness :
    FaqSection.headerChildren none "Questions" none = [FaqSection.titleH2 "Questions"] ∧
    HeroSection.ctaRowChildren ⟨"Go", "/go"⟩ none = [HeroSection.primaryButton ⟨"Go", "/go"⟩] :=
  ⟨(c6_optional_props_conditional_rendering "b" "Questions" "d" "t" "d2" "img"
      none none ⟨"Go", "/go"⟩ ⟨"S", "/s"⟩ none none []).2.2.1,
   (c6_optional_props_conditional_rendering "b" "Questions" "d" "t" "d2" "img"
      none none ⟨"Go", "/go"⟩ ⟨"S", "/s"⟩ none none []).2.2.2.2.2.1⟩

/-- C10 witness: the testimonial named "John Doe" gets the fallback
initials "JD". -/
theorem c10_avatar_fallback_initials_witness :
    TestimonialsGrid.avatarFallbackText
        ⟨"John Doe", "CEO", "Acme", none, 5, "Great product"⟩ = "JD" :=
  (c10_avatar_fallback_initials
    ⟨"John Doe", "CEO", "Acme", none, 5, "Great product"⟩).2.2.2
